import Mathlib

/-!
Verification of the request-safety core of the newsletter-aggregator
repository (`src/api/security.py`, `src/api/server.py`).

Shallow embedding conventions:
* IP addresses are modelled as natural numbers tagged with their family
  (`IPAddr.v4` for 32-bit, `IPAddr.v6` for 128-bit values); CIDR networks
  carry the family flag, the network address and the prefix length, and
  membership compares the high `plen` bits, mirroring
  `ipaddress.ip_network.__contains__` (which returns `False` on a family
  mismatch).
* The `ipaddress.ip_address` string parser and the DNS resolver
  `socket.getaddrinfo` are uninterpreted parameters
  (`parseIP : String → Option IPAddr`, `resolve : String → List String`):
  theorems quantify over them, so they hold for whatever the real library
  functions return.
* The CSRF token store (a Python dict from token strings to expiry
  timestamps) is an association list `Store`; `storeSet` mirrors dict
  assignment (update the existing key in place, otherwise append) and
  `del` is key-filtering.  Timestamps (`time.time()` clock readings) are integers (whole
  seconds; only order and addition of the TTL matter);
  the fresh random token produced by `secrets.token_hex(32)` is passed in
  as a parameter.  A single `now` stands for the (instantaneous) clock
  readings inside one call.
-/

namespace Digest

/-- A parsed numeric network address: IPv4 (value < 2^32) or IPv6
(value < 2^128). -/
inductive IPAddr where
  | v4 (a : Nat)
  | v6 (a : Nat)
deriving DecidableEq, Repr

/-- A CIDR network: family flag (`v6`), network address, prefix length. -/
structure IPNet where
  isV6 : Bool
  addr : Nat
  plen : Nat
deriving DecidableEq, Repr

/-- Dotted-quad helper: the 32-bit value of `a.b.c.d`. -/
def mkV4 (a b c d : Nat) : Nat := ((a * 256 + b) * 256 + c) * 256 + d

/-- `ip in network` from Python's `ipaddress` module: `False` on a family
mismatch, otherwise equality of the top `plen` bits. -/
def inNet (ip : IPAddr) (n : IPNet) : Bool :=
  match ip with
  | .v4 a => !n.isV6 && (a / 2 ^ (32 - n.plen) == n.addr / 2 ^ (32 - n.plen))
  | .v6 a => n.isV6 && (a / 2 ^ (128 - n.plen) == n.addr / 2 ^ (128 - n.plen))

/-- `_PRIVATE_NETWORKS` from `security.py`, in source order. -/
def PRIVATE_NETWORKS : List IPNet := [
  -- IPv4
  ⟨false, mkV4 0 0 0 0, 8⟩,           -- "This" network
  ⟨false, mkV4 10 0 0 0, 8⟩,          -- RFC-1918 private
  ⟨false, mkV4 100 64 0 0, 10⟩,       -- Shared address space (ISP NAT)
  ⟨false, mkV4 127 0 0 0, 8⟩,         -- Loopback
  ⟨false, mkV4 169 254 0 0, 16⟩,      -- Link-local / AWS & GCP metadata
  ⟨false, mkV4 172 16 0 0, 12⟩,       -- RFC-1918 private
  ⟨false, mkV4 192 0 0 0, 24⟩,        -- IETF protocol assignments
  ⟨false, mkV4 192 168 0 0, 16⟩,      -- RFC-1918 private
  ⟨false, mkV4 198 18 0 0, 15⟩,       -- Benchmarking
  ⟨false, mkV4 198 51 100 0, 24⟩,     -- TEST-NET-2 (documentation)
  ⟨false, mkV4 203 0 113 0, 24⟩,      -- TEST-NET-3 (documentation)
  ⟨false, mkV4 224 0 0 0, 4⟩,         -- Multicast
  ⟨false, mkV4 240 0 0 0, 4⟩,         -- Reserved
  ⟨false, mkV4 255 255 255 255, 32⟩,  -- Broadcast
  -- IPv6
  ⟨true, 1, 128⟩,                     -- Loopback ::1/128
  ⟨true, 0xfc00 * 2 ^ 112, 7⟩,        -- Unique local fc00::/7
  ⟨true, 0xfe80 * 2 ^ 112, 10⟩,       -- Link-local fe80::/10
  ⟨true, 0xff00 * 2 ^ 112, 8⟩]        -- Multicast ff00::/8

/-- Core of `_is_private_ip`: does a successfully parsed address fall in any
blocked network (`any(addr in net for net in _PRIVATE_NETWORKS)`)? -/
def ip_is_blocked (a : IPAddr) : Bool :=
  PRIVATE_NETWORKS.any (inNet a)

/-- `_is_private_ip(ip_str)` after the parse step: `none` models the
`ValueError` branch (unparseable ⇒ treated as unsafe). -/
def is_private_parsed : Option IPAddr → Bool
  | none => true
  | some a => ip_is_blocked a

/-- `_is_private_ip` on a string, with the `ipaddress.ip_address` parser
supplied as `parseIP`. -/
def is_private_ip (parseIP : String → Option IPAddr) (s : String) : Bool :=
  is_private_parsed (parseIP s)

/-! ## CSRF token store (`security.py`, lines 93–139) -/

/-- `TOKEN_TTL_SECONDS = 300`. -/
def TOKEN_TTL_SECONDS : Int := 300

/-- The in-memory token store `_token_store : Dict[str, float]`, as an
association list in insertion order. -/
abbrev Store := List (String × Int)

/-- Dict assignment `d[k] = v`: replace the value at an existing key in
place, otherwise append the new entry. -/
def storeSet : Store → String → Int → Store
  | [], k, v => [(k, v)]
  | p :: rest, k, v => if p.1 = k then (k, v) :: rest else p :: storeSet rest k v

/-- `token in _token_store` / `_token_store[token]`: first value stored at
the key, if any. -/
def storeGet (st : Store) (k : String) : Option Int :=
  (st.find? (fun p => p.1 == k)).map (·.2)

/-- `del _token_store[token]`: drop the key's entries. -/
def storeDel (st : Store) (k : String) : Store :=
  st.filter (fun p => !(p.1 == k))

/-- `_purge_expired_tokens()`: drop every entry with `exp < now`. -/
def purge_expired_tokens (now : Int) (st : Store) : Store :=
  st.filter (fun p => !(decide (p.2 < now)))

/-- `issue_csrf_token()`: purge, then store the fresh token (supplied as the
`token` parameter, standing for `secrets.token_hex(32)`) with expiry
`now + TOKEN_TTL_SECONDS`, and return it. -/
def issue_csrf_token (now : Int) (token : String) (st : Store) : String × Store :=
  let st1 := purge_expired_tokens now st
  (token, storeSet st1 token (now + TOKEN_TTL_SECONDS))

/-- `_consume_csrf_token(token)`: purge; absent or empty token ⇒ `false`;
present but past expiry ⇒ delete and `false`; present and unexpired ⇒
delete (single use) and `true`. -/
def consume_csrf_token (now : Int) (token : String) (st : Store) : Bool × Store :=
  let st1 := purge_expired_tokens now st
  if token = "" then (false, st1)
  else
    match storeGet st1 token with
    | none => (false, st1)
    | some exp =>
      if now > exp then (false, storeDel st1 token)
      else (true, storeDel st1 token)

/-! ## SSRF protection (`security.py`, lines 176–267) -/

/-- A single-quote character as a string (used inside rejection messages). -/
def sq : String := "\x27"

/-- Python `str.lower()`: character-wise lower-casing. -/
def lower (s : String) : String := ⟨s.data.map Char.toLower⟩

/-- `_BLOCKED_SCHEMES`. -/
def BLOCKED_SCHEMES : List String :=
  ["file", "ftp", "gopher", "dict", "ldap", "ldaps", "sftp", "tftp", "jar"]

/-- `MAX_FEEDS = 10`. -/
def MAX_FEEDS : Nat := 10

/-- The components of a URL that `check_url_safe` inspects after
`urllib.parse.urlparse`: the raw scheme and the (possibly absent)
hostname. -/
structure ParsedURL where
  scheme : String
  hostname : Option String
deriving DecidableEq, Repr

/-- A candidate URL as `check_url_safe` receives it: whether the Python
value is a `str`, the raw string (used in error messages), and the
`urlparse` result (`none` models `urlparse` raising). -/
structure RawURL where
  isString : Bool
  raw : String
  parsed : Option ParsedURL
deriving DecidableEq, Repr

/-- The rebinding-defence loop of `check_url_safe`: walk the resolved IP
strings; the first one classified private rejects with the hostname-naming
reason, otherwise the URL passes. -/
def check_resolved (parseIP : String → Option IPAddr) (hostname : String) :
    List String → Bool × String
  | [] => (true, "")
  | ip :: rest =>
    if is_private_ip parseIP ip then
      (false, "Hostname " ++ sq ++ hostname ++ sq ++
        " resolves to a private/internal address.")
    else check_resolved parseIP hostname rest

/-- `check_url_safe(url)`.  `parseIP` stands for `ipaddress.ip_address`,
`resolve` for `_resolve_host` (deduplicated `socket.getaddrinfo` answers;
`[]` models DNS failure). -/
def check_url_safe (parseIP : String → Option IPAddr)
    (resolve : String → List String) (u : RawURL) : Bool × String :=
  if !u.isString || u.raw = "" then
    (false, "URL must be a non-empty string.")
  else
    match u.parsed with
    | none => (false, "URL could not be parsed.")
    | some p =>
      let scheme := lower p.scheme
      if BLOCKED_SCHEMES.contains scheme then
        (false, "Scheme " ++ sq ++ scheme ++ sq ++ " is not permitted.")
      else if !(scheme == "http" || scheme == "https") then
        (false, "Only http and https URLs are accepted.")
      else
        match p.hostname with
        | none => (false, "URL has no hostname.")
        | some h =>
          if h = "" then (false, "URL has no hostname.")
          else
            -- Bare private-IP literal check; a parse failure falls through
            -- to DNS resolution.
            let litBlocked := match parseIP h with
              | some a => ip_is_blocked a
              | none => false
            if litBlocked then
              (false, "Requests to private/internal IP addresses are not allowed.")
            else
              let ips := resolve h
              if ips.isEmpty then
                (false, "Hostname " ++ sq ++ h ++ sq ++ " could not be resolved.")
              else check_resolved parseIP h ips

/-- The `feeds` value extracted from the request body: either not a Python
list at all, or a list of candidate URLs. -/
inductive FeedsField where
  | notList
  | list (urls : List RawURL)
deriving DecidableEq

/-- The per-URL loop of `validate_feed_urls`: first failure wins. -/
def validate_each (parseIP : String → Option IPAddr)
    (resolve : String → List String) : List RawURL → Bool × String
  | [] => (true, "")
  | u :: rest =>
    let (safe, reason) := check_url_safe parseIP resolve u
    if safe then validate_each parseIP resolve rest
    else (false, "Rejected URL " ++ sq ++ u.raw ++ sq ++ ": " ++ reason)

/-- `validate_feed_urls(urls)`. -/
def validate_feed_urls (parseIP : String → Option IPAddr)
    (resolve : String → List String) (feeds : FeedsField) : Bool × String :=
  match feeds with
  | .notList => (false, "At least one feed URL is required.")
  | .list urls =>
    if urls.length = 0 then (false, "At least one feed URL is required.")
    else if urls.length > MAX_FEEDS then
      (false, "A maximum of " ++ toString MAX_FEEDS ++
        " feed URLs are allowed per request.")
    else validate_each parseIP resolve urls

/-! ## The `/api/generate` orchestration (`server.py`, lines 164–209, and
the `require_csrf` decorator, `security.py` lines 144–171).

The route is instrumented with an event trace recording which of the four
steps actually executed, in order: CSRF token consumption, body-shape
(`days_back`) validation, feed-URL validation, and the downstream
fetch/render collaborator.

Caveat: `server.py` as written never runs this composition.  Line 14
imports `require_api_key` from `security`, a name `security.py` never
defines (it defines only `require_csrf`), and line 165 decorates
`/api/generate` with that nonexistent name — importing the module raises
`ImportError`, so the endpoint serves no request at all.  The composition
modelled below is the one `security.py`'s own module docstring (lines
23–27) and `require_csrf`'s docstring (lines 156–160) prescribe for
`/api/generate`: `require_csrf` wrapped around the route body. -/

inductive Event where
  | consumeToken
  | validateBody
  | validateUrls
  | fetchRender
deriving DecidableEq, Repr

/-- A JSON-level `days_back` value: a Python `int`, or something of another
type (caught by the `isinstance` check).  An absent field is embedded as
`.int 3`, the `body.get("days_back", 3)` default. -/
inductive DaysBack where
  | int (i : Int)
  | notInt
deriving DecidableEq

/-- The `days_back` admission test:
`isinstance(days_back, int) and 1 <= days_back <= 30`. -/
def days_back_ok : DaysBack → Bool
  | .int i => decide (1 ≤ i ∧ i ≤ 30)
  | .notInt => false

/-- The request body fields `generate` reads.  An absent `feeds` field is
embedded as `.list []`, the `body.get("feeds", [])` default. -/
structure RequestBody where
  feeds : FeedsField
  days_back : DaysBack

/-- Outcome of `fetch_articles` (the excluded scraping collaborator):
either the number of articles returned, or a raised exception's text. -/
inductive FetchOutcome where
  | ok (articles : Nat)
  | exn (msg : String)
deriving DecidableEq

/-- Outcome of `build_pdf` / `send_file`: success or a raised exception. -/
inductive BuildOutcome where
  | ok
  | exn (msg : String)
deriving DecidableEq

/-- A response from the route: a JSON error object with an HTTP status, or
the streamed PDF (HTTP 200). -/
inductive GenResp where
  | err (msg : String) (status : Nat)
  | pdf
deriving DecidableEq

/-- The body of `generate()` (inside the decorator): `days_back` check,
then `validate_feed_urls`, then the fetch/render collaborators. -/
def generate_route (parseIP : String → Option IPAddr)
    (resolve : String → List String) (body : RequestBody)
    (fetch : FetchOutcome) (build : BuildOutcome) (st : Store) :
    GenResp × Store × List Event :=
  if !days_back_ok body.days_back then
    (.err ("\x27days_back\x27 must be an integer between 1 and 30.") 400, st,
      [.validateBody])
  else
    let v := validate_feed_urls parseIP resolve body.feeds
    if !v.1 then
      (.err v.2 400, st, [.validateBody, .validateUrls])
    else
      match fetch with
      | .exn m =>
        (.err ("Scraping failed: " ++ m) 500, st,
          [.validateBody, .validateUrls, .fetchRender])
      | .ok n =>
        if n = 0 then
          (.err "No articles found in the requested time window." 404, st,
            [.validateBody, .validateUrls, .fetchRender])
        else
          match build with
          | .exn m =>
            (.err ("PDF generation failed: " ++ m) 500, st,
              [.validateBody, .validateUrls, .fetchRender])
          | .ok =>
            (.pdf, st, [.validateBody, .validateUrls, .fetchRender])

/-- Python `str.strip()`: drop leading and trailing whitespace. -/
def strip (s : String) : String :=
  ⟨((s.data.dropWhile Char.isWhitespace).reverse.dropWhile
      Char.isWhitespace).reverse⟩

/-- The `require_csrf` decorator: read the `X-CSRF-Token` header (missing ⇒
`""`), strip it, consume it; on any falsy result answer 401 with the
generic message, otherwise run the wrapped handler. -/
def require_csrf (fn : Store → GenResp × Store × List Event)
    (header : Option String) (now : Int) (st : Store) :
    GenResp × Store × List Event :=
  let token := strip (header.getD "")
  let c := consume_csrf_token now token st
  if c.1 then
    let r := fn c.2
    (r.1, r.2.1, .consumeToken :: r.2.2)
  else
    (.err "Unauthorized." 401, c.2, [.consumeToken])

/-- The `/api/generate` pipeline as `security.py`'s documentation
prescribes it: `require_csrf` wrapped around `generate_route`.  This is
not what `server.py` line 165 applies — there the decorator is the
undefined `require_api_key`, so the source realises no working
composition (see the section comment above). -/
def app_generate (parseIP : String → Option IPAddr)
    (resolve : String → List String) (header : Option String)
    (body : RequestBody) (fetch : FetchOutcome) (build : BuildOutcome)
    (now : Int) (st : Store) : GenResp × Store × List Event :=
  require_csrf (generate_route parseIP resolve body fetch build) header now st

/-! ## Token-store lemmas -/

theorem mem_purge {now : Int} {st : Store} {p : String × Int} :
    p ∈ purge_expired_tokens now st ↔ p ∈ st ∧ ¬ p.2 < now := by
  simp [purge_expired_tokens, List.mem_filter]

theorem storeSet_of_forall_ne (st : Store) (k : String) (v : Int)
    (h : ∀ p ∈ st, p.1 ≠ k) : storeSet st k v = st ++ [(k, v)] := by
  induction st with
  | nil => rfl
  | cons p rest ih =>
    have hp : p.1 ≠ k := h p (List.mem_cons_self p rest)
    simp only [storeSet, if_neg hp, List.cons_append, List.cons.injEq, true_and]
    exact ih fun q hq => h q (List.mem_cons_of_mem p hq)

theorem storeGet_of_forall_ne (st : Store) (k : String)
    (h : ∀ p ∈ st, p.1 ≠ k) : storeGet st k = none := by
  have : st.find? (fun p => p.1 == k) = none := by
    rw [List.find?_eq_none]
    intro p hp
    simpa using h p hp
  simp [storeGet, this]

theorem storeGet_append_singleton (A : Store) (k : String) (v : Int)
    (h : ∀ p ∈ A, p.1 ≠ k) : storeGet (A ++ [(k, v)]) k = some v := by
  induction A with
  | nil => simp [storeGet, List.find?]
  | cons p rest ih =>
    have hp : (p.1 == k) = false := by
      simpa using h p (List.mem_cons_self p rest)
    simp only [List.cons_append, storeGet, List.find?, hp]
    exact ih fun q hq => h q (List.mem_cons_of_mem p hq)

theorem storeDel_append_singleton (A : Store) (k : String) (v : Int)
    (h : ∀ p ∈ A, p.1 ≠ k) : storeDel (A ++ [(k, v)]) k = A := by
  simp only [storeDel, List.filter_append]
  have h2 : List.filter (fun p => !(p.1 == k)) [(k, v)] = [] := by
    simp [List.filter]
  rw [h2, List.append_nil, List.filter_eq_self]
  intro p hp
  simpa using h p hp

theorem issue_of_fresh (st : Store) (now : Int) (token : String)
    (h : ∀ p ∈ st, p.1 ≠ token) :
    (issue_csrf_token now token st).2 =
      purge_expired_tokens now st ++ [(token, now + TOKEN_TTL_SECONDS)] := by
  have hP : ∀ p ∈ purge_expired_tokens now st, p.1 ≠ token :=
    fun p hp => h p (mem_purge.1 hp).1
  simp [issue_csrf_token, storeSet_of_forall_ne _ _ _ hP]

theorem consume_of_absent (t : Int) (token : String) (st : Store)
    (h : ∀ p ∈ purge_expired_tokens t st, p.1 ≠ token) :
    consume_csrf_token t token st = (false, purge_expired_tokens t st) := by
  by_cases he : token = ""
  · simp [consume_csrf_token, he]
  · simp [consume_csrf_token, he, storeGet_of_forall_ne _ _ h]

theorem consume_of_fresh_within_ttl (st : Store) (now t1 : Int) (token : String)
    (htok : token ≠ "") (hfresh : ∀ p ∈ st, p.1 ≠ token)
    (httl : t1 ≤ now + TOKEN_TTL_SECONDS) :
    consume_csrf_token t1 token (issue_csrf_token now token st).2 =
      (true, purge_expired_tokens t1 (purge_expired_tokens now st)) := by
  have hiss := issue_of_fresh st now token hfresh
  set P := purge_expired_tokens now st with hPdef
  have hP : ∀ p ∈ P, p.1 ≠ token := fun p hp => hfresh p (mem_purge.1 hp).1
  have hQ : ∀ p ∈ purge_expired_tokens t1 P, p.1 ≠ token :=
    fun p hp => hP p (mem_purge.1 hp).1
  have hkeep : (!(decide ((now + TOKEN_TTL_SECONDS) < t1))) = true := by
    simpa using not_lt.2 httl
  have hpurge : purge_expired_tokens t1 (P ++ [(token, now + TOKEN_TTL_SECONDS)]) =
      purge_expired_tokens t1 P ++ [(token, now + TOKEN_TTL_SECONDS)] := by
    simp only [purge_expired_tokens, List.filter_append]
    congr 1
    simp [List.filter, hkeep]
  have hget : storeGet (purge_expired_tokens t1 P ++ [(token, now + TOKEN_TTL_SECONDS)])
      token = some (now + TOKEN_TTL_SECONDS) :=
    storeGet_append_singleton _ _ _ hQ
  have hdel : storeDel (purge_expired_tokens t1 P ++ [(token, now + TOKEN_TTL_SECONDS)])
      token = purge_expired_tokens t1 P :=
    storeDel_append_singleton _ _ _ hQ
  rw [hiss]
  simp only [consume_csrf_token, hpurge, hget, hdel, if_neg htok]
  rw [if_neg (by exact not_lt.2 httl)]

/-! ## Claim C4 -/

/-- C4: a token returned by `issue` is consumable at most once — a consume
within the TTL succeeds, and a second consume of the same value (at any
later time) fails. -/
theorem C4_token_single_use (st : Store) (now t1 t2 : Int) (token : String)
    (htok : token ≠ "") (hfresh : ∀ p ∈ st, p.1 ≠ token)
    (httl : t1 ≤ now + TOKEN_TTL_SECONDS) :
    (consume_csrf_token t1 token (issue_csrf_token now token st).2).1 = true ∧
    (consume_csrf_token t2 token
      (consume_csrf_token t1 token (issue_csrf_token now token st).2).2).1
      = false := by
  have h1 := consume_of_fresh_within_ttl st now t1 token htok hfresh httl
  refine ⟨by rw [h1], ?_⟩
  rw [h1]
  have habs : ∀ p ∈ purge_expired_tokens t2
      (purge_expired_tokens t1 (purge_expired_tokens now st)), p.1 ≠ token :=
    fun p hp => hfresh p (mem_purge.1 (mem_purge.1 (mem_purge.1 hp).1).1).1
  rw [consume_of_absent t2 token _ habs]

/-- C4 witness: issue at time 0, consume at time 0 succeeds, the second
consume at time 5 fails. -/
theorem C4_token_single_use_witness :
    (consume_csrf_token 0 "a" (issue_csrf_token 0 "a" []).2).1 = true ∧
    (consume_csrf_token 5 "a"
      (consume_csrf_token 0 "a" (issue_csrf_token 0 "a" []).2).2).1 = false :=
  C4_token_single_use [] 0 0 5 "a" (by decide) (by simp) (by decide)

/-! ## Claim C5 -/

/-- C5: a token issued with TTL 300 and consumed strictly after
`now + 300` yields `false`, and the whole outcome (verdict and resulting
store) is identical to consuming a token that was never issued. -/
theorem C5_expired_equals_unknown (st : Store) (now t1 : Int) (token u : String)
    (hfresh : ∀ p ∈ st, p.1 ≠ token) (hu : ∀ p ∈ st, p.1 ≠ u)
    (hexp : now + TOKEN_TTL_SECONDS < t1) :
    (consume_csrf_token t1 token (issue_csrf_token now token st).2).1 = false ∧
    consume_csrf_token t1 token (issue_csrf_token now token st).2 =
      consume_csrf_token t1 u (issue_csrf_token now token st).2 := by
  have hiss := issue_of_fresh st now token hfresh
  set P := purge_expired_tokens now st with hPdef
  have hsubP : ∀ p ∈ P, p ∈ st := fun p hp => (mem_purge.1 hp).1
  have hdrop : (!(decide ((now + TOKEN_TTL_SECONDS) < t1))) = false := by
    simpa using hexp
  have hpurge : purge_expired_tokens t1 (P ++ [(token, now + TOKEN_TTL_SECONDS)]) =
      purge_expired_tokens t1 P := by
    simp only [purge_expired_tokens, List.filter_append]
    have : List.filter (fun p => !(decide (p.2 < t1))) [(token, now + TOKEN_TTL_SECONDS)]
        = [] := by simp [List.filter, hdrop]
    rw [this, List.append_nil]
  have habs : ∀ p ∈ purge_expired_tokens t1 (P ++ [(token, now + TOKEN_TTL_SECONDS)]),
      p.1 ≠ token := by
    rw [hpurge]
    exact fun p hp => hfresh p (hsubP p (mem_purge.1 hp).1)
  have habsu : ∀ p ∈ purge_expired_tokens t1 (P ++ [(token, now + TOKEN_TTL_SECONDS)]),
      p.1 ≠ u := by
    rw [hpurge]
    exact fun p hp => hu p (hsubP p (mem_purge.1 hp).1)
  rw [hiss]
  rw [consume_of_absent t1 token _ habs, consume_of_absent t1 u _ habsu]
  exact ⟨rfl, rfl⟩

/-- C5 witness: token issued at time 0 (expiry 300) and consumed at
time 301 fails, with the same outcome as an unknown token. -/
theorem C5_expired_equals_unknown_witness :
    (consume_csrf_token 301 "a" (issue_csrf_token 0 "a" []).2).1 = false ∧
    consume_csrf_token 301 "a" (issue_csrf_token 0 "a" []).2 =
      consume_csrf_token 301 "b" (issue_csrf_token 0 "a" []).2 :=
  C5_expired_equals_unknown [] 0 301 "a" "b" (by simp) (by simp) (by decide)

/-! ## Claim C10 -/

/-- C10: `issue` changes the store only by dropping strictly-expired
entries and appending the fresh token with expiry `now + TTL`; every
unexpired entry survives with its expiry unchanged. -/
theorem C10_issue_frame (st : Store) (now : Int) (token : String)
    (k : String) (v : Int) (hfresh : ∀ p ∈ st, p.1 ≠ token) :
    (k, v) ∈ (issue_csrf_token now token st).2 ↔
      ((k, v) ∈ st ∧ ¬ v < now) ∨ (k = token ∧ v = now + TOKEN_TTL_SECONDS) := by
  rw [issue_of_fresh st now token hfresh]
  constructor
  · intro h
    rcases List.mem_append.1 h with h1 | h1
    · exact Or.inl (by simpa using mem_purge.1 h1)
    · simp only [List.mem_singleton, Prod.mk.injEq] at h1
      exact Or.inr h1
  · intro h
    rcases h with ⟨h1, h2⟩ | ⟨h1, h2⟩
    · exact List.mem_append.2 (Or.inl (mem_purge.2 ⟨h1, h2⟩))
    · subst h1; subst h2
      exact List.mem_append.2 (Or.inr (List.mem_singleton.2 rfl))

/-- C10 witness: issuing token `"a"` at time 0 over a store holding the
unexpired `("b", 10)` and the expired `("c", -1)` keeps `("b", 10)`. -/
theorem C10_issue_frame_witness :
    ("b", (10 : Int)) ∈ (issue_csrf_token 0 "a" [("b", 10), ("c", -1)]).2 ↔
      ((("b", (10 : Int)) ∈ ([("b", 10), ("c", -1)] : Store) ∧ ¬ (10 : Int) < 0) ∨
        ("b" = "a" ∧ (10 : Int) = 0 + TOKEN_TTL_SECONDS)) :=
  C10_issue_frame [("b", 10), ("c", -1)] 0 "a" "b" 10 (by decide)

/-! ## Claim C2 -/

/-- The IPv4 documentation range TEST-NET-1 (192.0.2.0/24), named by the
claim; it does not appear in `_PRIVATE_NETWORKS`. -/
def TEST_NET_1 : IPNet := ⟨false, mkV4 192 0 2 0, 24⟩

/-- The IPv4 documentation range TEST-NET-2 (198.51.100.0/24), present in
`_PRIVATE_NETWORKS`. -/
def TEST_NET_2 : IPNet := ⟨false, mkV4 198 51 100 0, 24⟩

/-- The IPv4 documentation range TEST-NET-3 (203.0.113.0/24), present in
`_PRIVATE_NETWORKS`. -/
def TEST_NET_3 : IPNet := ⟨false, mkV4 203 0 113 0, 24⟩

/-- The IPv6 documentation range 2001:db8::/32, named by the claim; it does
not appear in `_PRIVATE_NETWORKS`. -/
def IPV6_DOC_NET : IPNet := ⟨true, 0x20010db8 * 2 ^ 96, 32⟩

/-- C2 counterexample: 192.0.2.1 lies in the IPv4 documentation range
TEST-NET-1 and 2001:db8::1 lies in the IPv6 documentation range
2001:db8::/32, yet the classifier blocks neither, so the blocked set does
not cover the documentation ranges of both address families. -/
theorem C2_doc_ranges_counterexample :
    inNet (.v4 (mkV4 192 0 2 1)) TEST_NET_1 = true ∧
    ip_is_blocked (.v4 (mkV4 192 0 2 1)) = false ∧
    inNet (.v6 (0x20010db8 * 2 ^ 96 + 1)) IPV6_DOC_NET = true ∧
    ip_is_blocked (.v6 (0x20010db8 * 2 ^ 96 + 1)) = false := by
  refine ⟨by decide, by decide, by decide, by decide⟩

/-- C2 amended: the blocked set covers exactly the two IPv4 documentation
ranges it enumerates — every address inside TEST-NET-2 (198.51.100.0/24) or
TEST-NET-3 (203.0.113.0/24) is blocked; TEST-NET-1 (192.0.2.0/24) and the
IPv6 documentation range 2001:db8::/32 are not covered. -/
theorem C2_doc_ranges_blocked (a : Nat)
    (h : inNet (.v4 a) TEST_NET_2 = true ∨ inNet (.v4 a) TEST_NET_3 = true) :
    ip_is_blocked (.v4 a) = true := by
  rcases h with h | h
  · exact List.any_eq_true.mpr ⟨TEST_NET_2, by decide, h⟩
  · exact List.any_eq_true.mpr ⟨TEST_NET_3, by decide, h⟩

/-- C2 witness: 198.51.100.7 (inside TEST-NET-2) is blocked. -/
theorem C2_doc_ranges_blocked_witness :
    ip_is_blocked (.v4 (mkV4 198 51 100 7)) = true :=
  C2_doc_ranges_blocked (mkV4 198 51 100 7) (Or.inl (by decide))

/-! ## Claim C6 -/

/-- C6 counterexample: a protected request with the token header missing is
answered with status 401, not 400 as the claim states. -/
theorem C6_status_counterexample :
    require_csrf (fun st => (.pdf, st, [])) none 0 [] =
      (.err "Unauthorized." 401, [], [.consumeToken]) ∧ (401 : Nat) ≠ 400 :=
  ⟨by decide, by decide⟩

/-- C6 amended: whenever token consumption fails — header missing, token
unknown, expired, or already used — the response is the same generic
401 `"Unauthorized."`, revealing nothing about which cause applied. -/
theorem C6_csrf_failure_generic (fn : Store → GenResp × Store × List Event)
    (header : Option String) (now : Int) (st : Store)
    (h : (consume_csrf_token now (strip (header.getD "")) st).1 = false) :
    require_csrf fn header now st =
      (.err "Unauthorized." 401,
        (consume_csrf_token now (strip (header.getD "")) st).2,
        [.consumeToken]) := by
  simp [require_csrf, h]

/-- C6 witness: a request with no token header over an empty store. -/
theorem C6_csrf_failure_generic_witness :
    require_csrf (fun st => (.pdf, st, [])) (none : Option String) 0 [] =
      (.err "Unauthorized." 401,
        (consume_csrf_token 0 (strip ((none : Option String).getD "")) []).2,
        [.consumeToken]) :=
  C6_csrf_failure_generic (fun st => (.pdf, st, [])) none 0 [] (by decide)

/-! ## Claim C7 -/

/-- C7: a URL whose hostname is a literal numeric address inside a blocked
range is rejected on the literal-IP path with the private/internal-address
reason, for every possible resolver — no DNS resolution influences the
outcome. -/
theorem C7_literal_ip_rejected (parseIP : String → Option IPAddr)
    (u : RawURL) (p : ParsedURL) (host : String) (a : IPAddr)
    (hstr : u.isString = true) (hraw : u.raw ≠ "") (hp : u.parsed = some p)
    (hscheme : lower p.scheme = "http" ∨ lower p.scheme = "https")
    (hhost : p.hostname = some host) (hne : host ≠ "")
    (hparse : parseIP host = some a) (hblocked : ip_is_blocked a = true) :
    ∀ resolve, check_url_safe parseIP resolve u =
      (false, "Requests to private/internal IP addresses are not allowed.") := by
  intro resolve
  have hcontains : BLOCKED_SCHEMES.contains (lower p.scheme) = false := by
    rcases hscheme with h | h <;> rw [h] <;> decide
  have hallow : (!(lower p.scheme == "http" || lower p.scheme == "https"))
      = false := by
    rcases hscheme with h | h <;> rw [h] <;> decide
  simp only [check_url_safe, hstr, hp, hhost, hparse, hblocked, hcontains,
    hallow, Bool.not_true, Bool.false_or, Bool.or_false, if_true, if_false,
    Bool.false_eq_true, if_neg hraw, if_neg hne]
  simp [hraw]

/-- C7 witness: `http://169.254.169.254/latest/meta-data/` with its
hostname parsed as the link-local literal 169.254.169.254, under a
resolver that knows nothing. -/
theorem C7_literal_ip_rejected_witness :
    check_url_safe
      (fun s => if s = "169.254.169.254"
        then some (.v4 (mkV4 169 254 169 254)) else none)
      (fun _ => [])
      ⟨true, "http://169.254.169.254/latest/meta-data/",
        some ⟨"http", some "169.254.169.254"⟩⟩ =
      (false, "Requests to private/internal IP addresses are not allowed.") :=
  C7_literal_ip_rejected
    (fun s => if s = "169.254.169.254"
      then some (.v4 (mkV4 169 254 169 254)) else none)
    ⟨true, "http://169.254.169.254/latest/meta-data/",
      some ⟨"http", some "169.254.169.254"⟩⟩
    ⟨"http", some "169.254.169.254"⟩ "169.254.169.254"
    (.v4 (mkV4 169 254 169 254))
    rfl (by decide) rfl (Or.inl (by decide)) rfl (by decide) (by decide)
    (by decide) (fun _ => [])

/-! ## Claim C1 -/

theorem check_resolved_of_mem (parseIP : String → Option IPAddr)
    (host : String) (ips : List String)
    (h : ∃ ip ∈ ips, is_private_ip parseIP ip = true) :
    check_resolved parseIP host ips =
      (false, "Hostname " ++ sq ++ host ++ sq ++
        " resolves to a private/internal address.") := by
  induction ips with
  | nil => simp at h
  | cons x rest ih =>
    by_cases hx : is_private_ip parseIP x = true
    · simp [check_resolved, hx]
    · rcases h with ⟨ip, hmem, hpriv⟩
      rcases List.mem_cons.1 hmem with rfl | hmem2
      · exact absurd hpriv hx
      · simp only [check_resolved, hx, Bool.false_eq_true, if_false]
        exact ih ⟨ip, hmem2, hpriv⟩

/-- C1: when the hostname survives the literal-IP gate and DNS resolution
returns at least one address classified private, the URL is rejected with
the reason naming the hostname — regardless of how many other resolved
addresses are public (DNS-rebinding defence). -/
theorem C1_rebinding_rejected (parseIP : String → Option IPAddr)
    (resolve : String → List String) (u : RawURL) (p : ParsedURL)
    (host : String)
    (hstr : u.isString = true) (hraw : u.raw ≠ "") (hp : u.parsed = some p)
    (hscheme : lower p.scheme = "http" ∨ lower p.scheme = "https")
    (hhost : p.hostname = some host) (hne : host ≠ "")
    (hlit : ∀ a, parseIP host = some a → ip_is_blocked a = false)
    (hres : ∃ ip ∈ resolve host, is_private_ip parseIP ip = true) :
    check_url_safe parseIP resolve u =
      (false, "Hostname " ++ sq ++ host ++ sq ++
        " resolves to a private/internal address.") := by
  have hcontains : BLOCKED_SCHEMES.contains (lower p.scheme) = false := by
    rcases hscheme with h | h <;> rw [h] <;> decide
  have hallow : (!(lower p.scheme == "http" || lower p.scheme == "https"))
      = false := by
    rcases hscheme with h | h <;> rw [h] <;> decide
  have hnonempty : (resolve host).isEmpty = false := by
    rcases hres with ⟨ip, hmem, _⟩
    cases hips : resolve host with
    | nil => rw [hips] at hmem; simp at hmem
    | cons y ys => simp
  have hlit2 : (match parseIP host with
      | some a => ip_is_blocked a
      | none => false) = false := by
    cases hpi : parseIP host with
    | none => rfl
    | some a => exact hlit a hpi
  simp only [check_url_safe, hstr, hp, hhost, hcontains, hallow,
    Bool.not_true, Bool.false_or, Bool.false_eq_true, if_false,
    if_neg hraw, if_neg hne, hlit2, hnonempty]
  simp only [hraw, hstr]
  simp only [check_resolved_of_mem parseIP host (resolve host) hres]
  simp [hraw]

/-- C1 witness: `http://evil.test/` resolving to the public 93.184.216.34
and the private 10.0.0.5 is rejected, citing the hostname. -/
theorem C1_rebinding_rejected_witness :
    check_url_safe
      (fun s => if s = "10.0.0.5" then some (.v4 (mkV4 10 0 0 5))
        else if s = "93.184.216.34" then some (.v4 (mkV4 93 184 216 34))
        else none)
      (fun _ => ["93.184.216.34", "10.0.0.5"])
      ⟨true, "http://evil.test/", some ⟨"http", some "evil.test"⟩⟩ =
      (false, "Hostname " ++ sq ++ "evil.test" ++ sq ++
        " resolves to a private/internal address.") :=
  C1_rebinding_rejected
    (fun s => if s = "10.0.0.5" then some (.v4 (mkV4 10 0 0 5))
      else if s = "93.184.216.34" then some (.v4 (mkV4 93 184 216 34))
      else none)
    (fun _ => ["93.184.216.34", "10.0.0.5"])
    ⟨true, "http://evil.test/", some ⟨"http", some "evil.test"⟩⟩
    ⟨"http", some "evil.test"⟩ "evil.test"
    rfl (by decide) rfl (Or.inl (by decide)) rfl (by decide)
    (by intro a ha; simp at ha) ⟨"10.0.0.5", by decide, by decide⟩

/-! ## Claim C8 -/

/-- C8: a batch longer than `MAX_FEEDS` is rejected with the
maximum-naming reason, whatever the parser and resolver do — no individual
URL is validated and no network lookup happens. -/
theorem C8_batch_too_many (urls : List RawURL)
    (h : urls.length > MAX_FEEDS) :
    ∀ (parseIP : String → Option IPAddr) (resolve : String → List String),
      validate_feed_urls parseIP resolve (.list urls) =
        (false, "A maximum of " ++ toString MAX_FEEDS ++
          " feed URLs are allowed per request.") := by
  intro parseIP resolve
  have h0 : ¬ urls.length = 0 := by omega
  simp [validate_feed_urls, h0, h]

/-- C8 witness: a batch of 11 URLs. -/
theorem C8_batch_too_many_witness :
    validate_feed_urls (fun _ => none) (fun _ => [])
      (.list (List.replicate 11 ⟨true, "u", none⟩)) =
      (false, "A maximum of " ++ toString MAX_FEEDS ++
        " feed URLs are allowed per request.") :=
  C8_batch_too_many (List.replicate 11 ⟨true, "u", none⟩) (by decide)
    (fun _ => none) (fun _ => [])

/-! ## Claim C9 -/

theorem append_left_ne_empty (s t : String) (h : s ≠ "") : s ++ t ≠ "" := by
  intro hc
  apply h
  have hd := congrArg String.data hc
  rw [String.data_append] at hd
  have h1 : s.data = [] := (List.append_eq_nil.mp hd).1
  exact String.ext (by simp [h1])

theorem quoted_msg_ne_empty (pre mid post : String) (h : pre ≠ "") :
    pre ++ sq ++ mid ++ sq ++ post ≠ "" :=
  append_left_ne_empty _ _ (append_left_ne_empty _ _
    (append_left_ne_empty _ _ (append_left_ne_empty _ _ h)))

theorem check_resolved_allowed_iff (parseIP : String → Option IPAddr)
    (host : String) (ips : List String) :
    ((check_resolved parseIP host ips).2 = "" ↔
      (check_resolved parseIP host ips).1 = true) := by
  induction ips with
  | nil => simp [check_resolved]
  | cons x rest ih =>
    by_cases hx : is_private_ip parseIP x = true
    · simp only [check_resolved, hx, if_true]
      simp only [iff_false, Bool.false_eq_true]
      exact quoted_msg_ne_empty "Hostname " host
        " resolves to a private/internal address." (by decide)
    · simp only [check_resolved, hx, Bool.false_eq_true, if_false]
      exact ih

/-- C9: for every input and every behaviour of the IP parser and the
resolver, the verdict of `check_url_safe` has an empty reason exactly when
the URL is allowed. -/
theorem C9_reason_empty_iff_allowed (parseIP : String → Option IPAddr)
    (resolve : String → List String) (u : RawURL) :
    ((check_url_safe parseIP resolve u).2 = "" ↔
      (check_url_safe parseIP resolve u).1 = true) := by
  rcases u with ⟨istr, raw, parsed⟩
  by_cases h1 : (!istr || (decide (raw = ""))) = true
  · simp [check_url_safe, h1]
  · rcases parsed with _ | p
    · simp [check_url_safe, h1]
    · simp only [check_url_safe, h1, Bool.false_eq_true, if_false]
      by_cases hbs : BLOCKED_SCHEMES.contains (lower p.scheme) = true
      · simp only [hbs, if_true]
        simp only [iff_false, Bool.false_eq_true]
        exact quoted_msg_ne_empty "Scheme " (lower p.scheme)
          " is not permitted." (by decide)
      · simp only [hbs, Bool.false_eq_true, if_false]
        by_cases hal : (!(lower p.scheme == "http" || lower p.scheme == "https"))
            = true
        · simp [hal]
        · simp only [hal, Bool.false_eq_true, if_false]
          rcases hh : p.hostname with _ | host
          · simp
          · by_cases hhe : host = ""
            · simp [hhe]
            · simp only [hhe, if_false]
              have hmsg : ("Hostname " ++ sq ++ host ++ sq ++
                  " could not be resolved.") ≠ "" :=
                quoted_msg_ne_empty "Hostname " host
                  " could not be resolved." (by decide)
              rcases hpi : parseIP host with _ | a
              · by_cases hips : (resolve host).isEmpty = true
                · simp [hips, hmsg]
                · simp [hips, check_resolved_allowed_iff]
              · by_cases hbl : ip_is_blocked a = true
                · simp [hbl]
                · by_cases hips : (resolve host).isEmpty = true
                  · simp [hbl, hips, hmsg]
                  · simp [hbl, hips, check_resolved_allowed_iff]

/-! ## Claim C3 -/

theorem generate_route_trace (parseIP : String → Option IPAddr)
    (resolve : String → List String) (body : RequestBody)
    (fetch : FetchOutcome) (build : BuildOutcome) (st : Store) :
    (generate_route parseIP resolve body fetch build st).2.2 =
      if days_back_ok body.days_back = false then [Event.validateBody]
      else if (validate_feed_urls parseIP resolve body.feeds).1 = false then
        [Event.validateBody, Event.validateUrls]
      else [Event.validateBody, Event.validateUrls, Event.fetchRender] := by
  unfold generate_route
  by_cases hd : days_back_ok body.days_back = true
  · by_cases hv : (validate_feed_urls parseIP resolve body.feeds).1 = true
    · simp only [hd, hv, Bool.not_true, Bool.false_eq_true, if_false, if_neg]
      cases fetch with
      | exn m => simp [hd, hv]
      | ok n =>
        by_cases hn : n = 0
        · simp [hd, hv, hn]
        · cases build with
          | exn m => simp [hd, hv, hn]
          | ok => simp [hd, hv, hn]
    · simp [hd, Bool.not_eq_true] at hv
      simp [hd, hv]
  · simp [Bool.not_eq_true] at hd
    simp [hd]

theorem app_generate_trace (parseIP : String → Option IPAddr)
    (resolve : String → List String) (header : Option String)
    (body : RequestBody) (fetch : FetchOutcome) (build : BuildOutcome)
    (now : Int) (st : Store) :
    (app_generate parseIP resolve header body fetch build now st).2.2 =
      if (consume_csrf_token now (strip (header.getD "")) st).1 = false then
        [Event.consumeToken]
      else Event.consumeToken ::
        (generate_route parseIP resolve body fetch build
          (consume_csrf_token now (strip (header.getD "")) st).2).2.2 := by
  unfold app_generate require_csrf
  by_cases hc : (consume_csrf_token now (strip (header.getD "")) st).1 = true
  · simp [hc]
  · simp [Bool.not_eq_true] at hc
    simp [hc]

/-- C3: the sequencing the claim states, proved of the composition that
`security.py`'s documentation prescribes for `/api/generate`
(`require_csrf` around the route body) — the code slip being that
`server.py` decorates the route with the undefined `require_api_key`, so
the shipped module cannot import and serves no request.  For the
prescribed composition: on every fetch-triggering request the executed
steps form a prefix of [consume token, validate body shape, validate
URLs, fetch/render], starting with token consumption; body validation
runs iff consumption succeeded, URL validation iff body validation also
succeeded, and the downstream collaborator runs iff all three gates
passed. -/
theorem C3_steps_in_strict_sequence (parseIP : String → Option IPAddr)
    (resolve : String → List String) (header : Option String)
    (body : RequestBody) (fetch : FetchOutcome) (build : BuildOutcome)
    (now : Int) (st : Store) :
    let evs := (app_generate parseIP resolve header body fetch build now st).2.2
    evs.isPrefixOf [Event.consumeToken, Event.validateBody,
        Event.validateUrls, Event.fetchRender] = true ∧
    evs.head? = some Event.consumeToken ∧
    (Event.validateBody ∈ evs ↔
      (consume_csrf_token now (strip (header.getD "")) st).1 = true) ∧
    (Event.validateUrls ∈ evs ↔
      ((consume_csrf_token now (strip (header.getD "")) st).1 = true ∧
        days_back_ok body.days_back = true)) ∧
    (Event.fetchRender ∈ evs ↔
      ((consume_csrf_token now (strip (header.getD "")) st).1 = true ∧
        days_back_ok body.days_back = true ∧
        (validate_feed_urls parseIP resolve body.feeds).1 = true)) := by
  intro evs
  have htr : evs =
      if (consume_csrf_token now (strip (header.getD "")) st).1 = false then
        [Event.consumeToken]
      else Event.consumeToken ::
        (generate_route parseIP resolve body fetch build
          (consume_csrf_token now (strip (header.getD "")) st).2).2.2 :=
    app_generate_trace parseIP resolve header body fetch build now st
  rw [generate_route_trace] at htr
  by_cases hc : (consume_csrf_token now (strip (header.getD "")) st).1 = true
  · by_cases hd : days_back_ok body.days_back = true
    · by_cases hv : (validate_feed_urls parseIP resolve body.feeds).1 = true
      · rw [hc] at htr
        simp only [hd, hv, Bool.true_eq_false, if_false, if_neg] at htr
        rw [htr]
        refine ⟨by decide, rfl, by simp [hc], by simp [hc, hd], by simp [hc, hd, hv]⟩
      · rw [hc] at htr
        have hv2 : (validate_feed_urls parseIP resolve body.feeds).1 = false :=
          by simpa [Bool.not_eq_true] using hv
        simp only [hd, hv2, Bool.true_eq_false, if_false, if_true] at htr
        rw [htr]
        refine ⟨by decide, rfl, by simp [hc], by simp [hc, hd], by simp [hv2]⟩
    · rw [hc] at htr
      have hd2 : days_back_ok body.days_back = false :=
        by simpa [Bool.not_eq_true] using hd
      simp only [hd2, Bool.true_eq_false, if_false, if_true] at htr
      rw [htr]
      refine ⟨by decide, rfl, by simp [hc], by simp [hd2], by simp [hd2]⟩
  · have hc2 : (consume_csrf_token now (strip (header.getD "")) st).1 = false :=
      by simpa [Bool.not_eq_true] using hc
    rw [hc2] at htr
    simp only [if_true] at htr
    rw [htr]
    refine ⟨by decide, rfl, by simp [hc2], by simp [hc2], by simp [hc2]⟩

end Digest
